import Mathlib

/-!
# SilenceEntryFormPanel

A shallow embedding of
`dashboard/src/components/partials/SilenceEntryForm/SilenceEntryFormPanel.js`.

The component is a React class whose only method is `render`; `render` reads the four
props and returns a JSX tree.  A JSX element `<C a={v} ...>kids</C>` is the value
`React.createElement(C, {a: v, ...}, ...kids)`: a component type, the attributes in the
order they are written, and the child list.  The embedding keeps exactly that data.

The three renderable props (`title`, `summary`, `children`, all `PropTypes.node`) are
never inspected by `render`, only inserted with `{...}`; `render` is therefore written
once for every type `ν` of renderable values.
-/

namespace SilenceEntryFormPanel

/-! ## JSX values -/

/-- One CSS declaration of a `withStyles` rule, such as `maxWidth: "100%"`. -/
abbrev CssDecl := String × String

/-- The object returned by a `withStyles` callback: rule name to its declarations. -/
abbrev StyleSheet := List (String × List CssDecl)

/-- The component types the file imports, and `withStyles(styles)(inner)`. -/
inductive Component where
  | ExpansionPanel
  | ExpansionPanelDetails
  | ExpansionPanelSummary
  | Grid
  | Typography
  | ExpandMoreIcon
  | withStyles (styles : StyleSheet) (inner : Component)
  deriving DecidableEq, Repr

mutual
/-- The value of a JSX attribute. An attribute written without a value is `true`. -/
inductive PropValue (ν : Type) where
  | bool (b : Bool)
  | str (s : String)
  | num (n : Nat)
  | element (e : Element ν)

/-- A JSX element: component type, attributes in source order, children in order. -/
inductive Element (ν : Type) where
  | mk (type : Component) (props : List (String × PropValue ν)) (children : List (Child ν))

/-- A child of a JSX element: a nested element, or an embedded expression `{e}`. -/
inductive Child (ν : Type) where
  | element (e : Element ν)
  | expr (value : ν)
end

/-! ## Generic operations on JSX values -/

mutual
/-- Apply `f` to every embedded expression inside an attribute value. -/
def PropValue.map {ν μ : Type} (f : ν → μ) : PropValue ν → PropValue μ
  | .bool b => .bool b
  | .str s => .str s
  | .num n => .num n
  | .element e => .element (Element.map f e)

/-- Apply `f` to every embedded expression of an element, keeping all else. -/
def Element.map {ν μ : Type} (f : ν → μ) : Element ν → Element μ
  | .mk t ps cs => .mk t (mapProps f ps) (mapChildren f cs)

/-- Apply `f` to a child. -/
def Child.map {ν μ : Type} (f : ν → μ) : Child ν → Child μ
  | .element e => .element (Element.map f e)
  | .expr v => .expr (f v)

/-- Apply `f` inside every attribute of an attribute list. -/
def mapProps {ν μ : Type} (f : ν → μ) :
    List (String × PropValue ν) → List (String × PropValue μ)
  | [] => []
  | (k, v) :: ps => (k, PropValue.map f v) :: mapProps f ps

/-- Apply `f` inside every child of a child list. -/
def mapChildren {ν μ : Type} (f : ν → μ) : List (Child ν) → List (Child μ)
  | [] => []
  | c :: cs => Child.map f c :: mapChildren f cs
end

mutual
/-- The embedded expressions inside an attribute value, in document order. -/
def PropValue.exprs {ν : Type} : PropValue ν → List ν
  | .bool _ => []
  | .str _ => []
  | .num _ => []
  | .element e => Element.exprs e

/-- Every embedded expression `{e}` of a tree, in document order
(attributes of a tag before its children). -/
def Element.exprs {ν : Type} : Element ν → List ν
  | .mk _ ps cs => propsExprs ps ++ childrenExprs cs

/-- The embedded expressions of a child. -/
def Child.exprs {ν : Type} : Child ν → List ν
  | .element e => Element.exprs e
  | .expr v => [v]

/-- The embedded expressions of an attribute list. -/
def propsExprs {ν : Type} : List (String × PropValue ν) → List ν
  | [] => []
  | (_, v) :: ps => PropValue.exprs v ++ propsExprs ps

/-- The embedded expressions of a child list. -/
def childrenExprs {ν : Type} : List (Child ν) → List ν
  | [] => []
  | c :: cs => Child.exprs c ++ childrenExprs cs
end

mutual
/-- The elements of component type `c` inside an attribute value. -/
def PropValue.elementsOf {ν : Type} (c : Component) : PropValue ν → List (Element ν)
  | .bool _ => []
  | .str _ => []
  | .num _ => []
  | .element e => Element.elementsOf c e

/-- Every element of component type `c` in a tree, the root included, in document order. -/
def Element.elementsOf {ν : Type} (c : Component) : Element ν → List (Element ν)
  | .mk t ps cs =>
    (if t = c then [Element.mk t ps cs] else []) ++ propsElementsOf c ps ++ childrenElementsOf c cs

/-- The elements of component type `c` under a child. -/
def Child.elementsOf {ν : Type} (c : Component) : Child ν → List (Element ν)
  | .element e => Element.elementsOf c e
  | .expr _ => []

/-- The elements of component type `c` inside an attribute list. -/
def propsElementsOf {ν : Type} (c : Component) :
    List (String × PropValue ν) → List (Element ν)
  | [] => []
  | (_, v) :: ps => PropValue.elementsOf c v ++ propsElementsOf c ps

/-- The elements of component type `c` under a child list. -/
def childrenElementsOf {ν : Type} (c : Component) : List (Child ν) → List (Element ν)
  | [] => []
  | k :: ks => Child.elementsOf c k ++ childrenElementsOf c ks
end

/-- The component type of an element. -/
def Element.type {ν : Type} : Element ν → Component
  | .mk t _ _ => t

/-- The attributes of an element, in source order. -/
def Element.props {ν : Type} : Element ν → List (String × PropValue ν)
  | .mk _ ps _ => ps

/-- The children of an element, in order. -/
def Element.children {ν : Type} : Element ν → List (Child ν)
  | .mk _ _ cs => cs

/-- The value of attribute `name`, `none` when the tag does not carry it.
(No tag of this file repeats an attribute name.) -/
def Element.attr {ν : Type} (e : Element ν) (name : String) : Option (PropValue ν) :=
  e.props.lookup name

/-- The element reached from `e` by following child indices. -/
def Element.descend {ν : Type} : List Nat → Element ν → Option (Element ν)
  | [], e => some e
  | i :: path, e =>
    match e.children.get? i with
    | some (.element k) => Element.descend path k
    | _ => none

/-- Assign attribute `name` in an attribute list (as object assignment does:
an existing key keeps its position, a new key is appended). -/
def setAttr {ν : Type} (name : String) (v : PropValue ν) :
    List (String × PropValue ν) → List (String × PropValue ν)
  | [] => [(name, v)]
  | (k, w) :: ps => if k = name then (k, v) :: ps else (k, w) :: setAttr name v ps

/-- Replace the `i`-th entry of a list by its image under `f`. -/
def modifyAt {α : Type} (f : α → α) : Nat → List α → List α
  | _, [] => []
  | 0, x :: xs => f x :: xs
  | i + 1, x :: xs => x :: modifyAt f i xs

/-- Apply `f` to a child that is an element. -/
def Child.onElement {ν : Type} (f : Element ν → Element ν) : Child ν → Child ν
  | .element e => .element (f e)
  | .expr v => .expr v

/-- The tree `e` with the single attribute `name` of the element at `path` set to `v`
and nothing else changed. -/
def Element.setAttrAt {ν : Type} (name : String) (v : PropValue ν) :
    List Nat → Element ν → Element ν
  | [], .mk t ps cs => .mk t (setAttr name v ps) cs
  | i :: path, .mk t ps cs =>
    .mk t ps (modifyAt (Child.onElement (Element.setAttrAt name v path)) i cs)

/-- The value of CSS property `property` in rule `rule` of a component's own
`withStyles` sheet. -/
def Component.style (rule property : String) : Component → Option String
  | .withStyles styles _ => (styles.lookup rule).bind (fun decls => decls.lookup property)
  | _ => none

/-- The component a `withStyles` wrapper draws (itself when not a wrapper). -/
def Component.base : Component → Component
  | .withStyles _ inner => inner.base
  | c => c

/-- Material-UI lays a `Grid container` out on twelve columns; an item's `xs` is the
number of columns it spans. -/
def gridColumns : Nat := 12

/-- The share of the container's width a `Grid item` takes: `xs / 12`. -/
def Element.widthFraction {ν : Type} (e : Element ν) : Option ℚ :=
  match e.attr "xs" with
  | some (.num n) => some ((n : ℚ) / (gridColumns : ℚ))
  | _ => none

/-! ## The component -/

/-- The props `render` reads, after React has applied `defaultProps`
(`propTypes`: three `PropTypes.node` and one `PropTypes.bool`). -/
structure Props (ν : Type) where
  title : ν
  summary : ν
  hasDefaultValue : Bool
  children : ν

/-- A `PropTypes.node` value: `undefined`, or something renderable. -/
inductive Node (ρ : Type) where
  | undefined
  | content (r : ρ)
  deriving DecidableEq, Repr

/-- The props as the caller supplies them; `none` is a prop that is not passed. -/
structure SuppliedProps (ρ : Type) where
  title : Option (Node ρ)
  summary : Option (Node ρ)
  hasDefaultValue : Option Bool
  children : Option (Node ρ)

/-- `static defaultProps`. -/
def defaultProps {ρ : Type} : Props (Node ρ) :=
  { title := .undefined
    summary := .undefined
    hasDefaultValue := false
    children := .undefined }

/-- React's rule for one `PropTypes.node` prop with a default: a prop that is not passed,
or is passed as `undefined`, takes the default. -/
def resolveNode {ρ : Type} (dflt : Node ρ) : Option (Node ρ) → Node ρ
  | none => dflt
  | some .undefined => dflt
  | some (.content r) => .content r

/-- React's application of `defaultProps` when the element is created. -/
def resolveDefaultProps {ρ : Type} (supplied : SuppliedProps ρ) : Props (Node ρ) :=
  { title := resolveNode defaultProps.title supplied.title
    summary := resolveNode defaultProps.summary supplied.summary
    hasDefaultValue :=
      supplied.hasDefaultValue.getD (defaultProps : Props (Node ρ)).hasDefaultValue
    children := resolveNode defaultProps.children supplied.children }

/-- The state fields of the class: it declares no `state`, has no constructor and never
calls `setState`, so the record is empty. -/
structure State where
  deriving DecidableEq, Repr

/-- `withStyles(() => ({ content: { maxWidth: "100%" } }))(ExpansionPanelSummary)`. -/
def StyledExpansionPanelSummary : Component :=
  .withStyles [("content", [("maxWidth", "100%")])] .ExpansionPanelSummary

/-- `withStyles(() => ({ root: { flexDirection: "column" } }))(ExpansionPanelDetails)`. -/
def StyledExpansionPanelDetails : Component :=
  .withStyles [("root", [("flexDirection", "column")])] .ExpansionPanelDetails

/-- `SilenceEntryFormPanel.render`. -/
def render {ν : Type} (props : Props ν) : Element ν :=
  let title := props.title
  let summary := props.summary
  let children := props.children
  let hasDefaultValue := props.hasDefaultValue
  .mk .ExpansionPanel [("defaultExpanded", .bool hasDefaultValue)]
    [ .element (.mk StyledExpansionPanelSummary
        [("expandIcon", .element (.mk .ExpandMoreIcon [] []))]
        [ .element (.mk .Grid [("container", .bool true)]
            [ .element (.mk .Grid [("item", .bool true), ("xs", .num 4)]
                [ .element (.mk .Typography
                    [("variant", .str "body2"), ("noWrap", .bool true)]
                    [.expr title]) ]),
              .element (.mk .Grid [("item", .bool true), ("xs", .num 8)]
                [ .element (.mk .Typography
                    [ ("color", .str (if hasDefaultValue then "textSecondary" else "secondary")),
                      ("noWrap", .bool true) ]
                    [.expr summary]) ]) ]) ]),
      .element (.mk StyledExpansionPanelDetails [] [.expr children]) ]

/-- Mounting the component: React applies `defaultProps`, then calls `render`. -/
def mount {ρ : Type} (supplied : SuppliedProps ρ) : Element (Node ρ) :=
  render (resolveDefaultProps supplied)

/-- The names of the three renderable props. -/
inductive PropName where
  | title
  | summary
  | children
  deriving DecidableEq, Repr

/-- The value of a renderable prop, by name. -/
def Props.get {ν : Type} (props : Props ν) : PropName → ν
  | .title => props.title
  | .summary => props.summary
  | .children => props.children

/-- The props in which every renderable prop is its own name. -/
def Props.names (hasDefaultValue : Bool) : Props PropName :=
  { title := .title
    summary := .summary
    hasDefaultValue := hasDefaultValue
    children := .children }

/-- The header of a rendered panel: its first child. -/
def header {ν : Type} (e : Element ν) : Option (Element ν) := e.descend [0]

/-- The details region of a rendered panel: its second child. -/
def details {ν : Type} (e : Element ν) : Option (Element ν) := e.descend [1]

/-- The `Typography` around the title: panel, header, container, first item, its child. -/
def titleTypography {ν : Type} (e : Element ν) : Option (Element ν) := e.descend [0, 0, 0, 0]

/-- The `Typography` around the summary: panel, header, container, second item, its child. -/
def summaryTypography {ν : Type} (e : Element ν) : Option (Element ν) :=
  e.descend [0, 0, 1, 0]

/-- A props value with `hasDefaultValue = true`. -/
def expireNever : Props String :=
  { title := "Expiration", summary := "never", hasDefaultValue := true,
    children := "expire controls" }

/-- A second props value with `hasDefaultValue = true` and other contents. -/
def scheduleNow : Props String :=
  { title := "Schedule", summary := "begin now", hasDefaultValue := true,
    children := "schedule controls" }

/-! ## Theorems -/

/-- C1: for every title, summary and children, `render` with `hasDefaultValue = false`
produces an `ExpansionPanel` whose `defaultExpanded` is `false` (initially collapsed) and
whose summary `Typography` (the one holding `{summary}`) has colour `"secondary"`. -/
theorem render_false_collapsed_secondary {ν : Type} (title summary children : ν) :
    (render { title, summary, hasDefaultValue := false, children }).type = .ExpansionPanel ∧
    (render { title, summary, hasDefaultValue := false, children }).attr "defaultExpanded"
      = some (.bool false) ∧
    summaryTypography (render { title, summary, hasDefaultValue := false, children })
      = some (.mk .Typography [("color", .str "secondary"), ("noWrap", .bool true)]
          [.expr summary]) ∧
    (summaryTypography (render { title, summary, hasDefaultValue := false, children })).bind
      (fun e => e.attr "color") = some (.str "secondary") :=
  ⟨rfl, rfl, rfl, rfl⟩

/-- C2: for every title, summary and children, `render` with `hasDefaultValue = true`
produces an `ExpansionPanel` whose `defaultExpanded` is `true` (initially expanded) and
whose summary `Typography` (the one holding `{summary}`) has colour `"textSecondary"`. -/
theorem render_true_expanded_textSecondary {ν : Type} (title summary children : ν) :
    (render { title, summary, hasDefaultValue := true, children }).type = .ExpansionPanel ∧
    (render { title, summary, hasDefaultValue := true, children }).attr "defaultExpanded"
      = some (.bool true) ∧
    summaryTypography (render { title, summary, hasDefaultValue := true, children })
      = some (.mk .Typography [("color", .str "textSecondary"), ("noWrap", .bool true)]
          [.expr summary]) ∧
    (summaryTypography (render { title, summary, hasDefaultValue := true, children })).bind
      (fun e => e.attr "color") = some (.str "textSecondary") :=
  ⟨rfl, rfl, rfl, rfl⟩

/-- C3: for every props value, the rendered tree has exactly two `Typography` elements,
the first holding `{title}` and the second holding `{summary}`, and both carry
`noWrap = true`. -/
theorem typography_noWrap {ν : Type} (props : Props ν) :
    ((render props).elementsOf .Typography).map Element.children
      = [[.expr props.title], [.expr props.summary]] ∧
    (∀ e ∈ (render props).elementsOf .Typography, e.attr "noWrap" = some (.bool true)) ∧
    (titleTypography (render props)).map Element.type = some .Typography ∧
    (titleTypography (render props)).map Element.children = some [.expr props.title] ∧
    (titleTypography (render props)).bind (fun e => e.attr "noWrap") = some (.bool true) ∧
    (summaryTypography (render props)).map Element.type = some .Typography ∧
    (summaryTypography (render props)).map Element.children = some [.expr props.summary] ∧
    (summaryTypography (render props)).bind (fun e => e.attr "noWrap") = some (.bool true) := by
  have hlist : (render props).elementsOf .Typography
      = [ .mk .Typography [("variant", .str "body2"), ("noWrap", .bool true)]
            [.expr props.title],
          .mk .Typography
            [ ("color", .str (if props.hasDefaultValue then "textSecondary" else "secondary")),
              ("noWrap", .bool true) ]
            [.expr props.summary] ] := rfl
  refine ⟨by rw [hlist]; rfl, ?_, rfl, rfl, rfl, rfl, rfl, rfl⟩
  intro e he
  rw [hlist] at he
  simp only [List.mem_cons, List.mem_singleton, List.not_mem_nil, or_false] at he
  rcases he with rfl | rfl <;> rfl

/-- C4: for every props value, `{children}` is placed exactly once in the rendered tree:
it is the sole content of the `StyledExpansionPanelDetails` element (whose `root` rule is
`flexDirection: "column"`), and the `StyledExpansionPanelSummary` header holds only
`{title}` and `{summary}`.  Placement is read off the tree rendered from the prop names,
of which every rendered tree is the image under `props.get`. -/
theorem children_only_in_details {ν : Type} (props : Props ν) :
    details (render props)
      = some (.mk StyledExpansionPanelDetails [] [.expr props.children]) ∧
    StyledExpansionPanelDetails.style "root" "flexDirection" = some "column" ∧
    StyledExpansionPanelDetails.base = .ExpansionPanelDetails ∧
    (render props).elementsOf StyledExpansionPanelDetails
      = [.mk StyledExpansionPanelDetails [] [.expr props.children]] ∧
    (render props).exprs = [props.title, props.summary, props.children] ∧
    (header (render props)).map Element.type = some StyledExpansionPanelSummary ∧
    (header (render props)).map Element.exprs = some [props.title, props.summary] ∧
    render props = (render (Props.names props.hasDefaultValue)).map props.get ∧
    (render (Props.names props.hasDefaultValue)).exprs.count .children = 1 ∧
    (∀ h ∈ header (render (Props.names props.hasDefaultValue)), .children ∉ h.exprs) ∧
    (details (render (Props.names props.hasDefaultValue))).map Element.exprs
      = some [.children] := by
  refine ⟨rfl, rfl, rfl, rfl, rfl, rfl, rfl, rfl, ?_, ?_, rfl⟩
  · cases props.hasDefaultValue <;> decide
  · intro h hh
    have hx : h.exprs = [.title, .summary] := by
      have hdr : header (render (Props.names props.hasDefaultValue)) = some h := hh
      injection hdr with hdr
      rw [← hdr]
      rfl
    rw [hx]
    decide

/-- C5: for every props value, the header holds one `Grid container` whose children are
exactly two `Grid item`s in this order: the item holding `{title}` with `xs = 4`, then the
item holding `{summary}` with `xs = 8`; on the twelve-column grid these are 1/3 and 2/3 of
the width, and the two spans add up to the twelve columns. -/
theorem header_grid_columns {ν : Type} (props : Props ν) :
    (header (render props)).map Element.children
      = some [.element (.mk .Grid [("container", .bool true)]
          [ .element (.mk .Grid [("item", .bool true), ("xs", .num 4)]
              [ .element (.mk .Typography
                  [("variant", .str "body2"), ("noWrap", .bool true)]
                  [.expr props.title]) ]),
            .element (.mk .Grid [("item", .bool true), ("xs", .num 8)]
              [ .element (.mk .Typography
                  [ ("color",
                      .str (if props.hasDefaultValue then "textSecondary" else "secondary")),
                    ("noWrap", .bool true) ]
                  [.expr props.summary]) ]) ])] ∧
    ((render props).descend [0, 0]).map Element.type = some .Grid ∧
    ((render props).descend [0, 0]).bind (fun e => e.attr "container") = some (.bool true) ∧
    ((render props).descend [0, 0]).map (fun e => e.children.length) = some 2 ∧
    ((render props).descend [0, 0, 0]).map Element.type = some .Grid ∧
    ((render props).descend [0, 0, 0]).bind (fun e => e.attr "item") = some (.bool true) ∧
    ((render props).descend [0, 0, 0]).bind (fun e => e.attr "xs") = some (.num 4) ∧
    ((render props).descend [0, 0, 0]).map Element.exprs = some [props.title] ∧
    ((render props).descend [0, 0, 1]).map Element.type = some .Grid ∧
    ((render props).descend [0, 0, 1]).bind (fun e => e.attr "item") = some (.bool true) ∧
    ((render props).descend [0, 0, 1]).bind (fun e => e.attr "xs") = some (.num 8) ∧
    ((render props).descend [0, 0, 1]).map Element.exprs = some [props.summary] ∧
    ((render props).descend [0, 0, 0]).bind Element.widthFraction = some (1 / 3) ∧
    ((render props).descend [0, 0, 1]).bind Element.widthFraction = some (2 / 3) ∧
    4 + 8 = gridColumns := by
  refine ⟨rfl, rfl, rfl, rfl, rfl, rfl, rfl, rfl, rfl, rfl, rfl, rfl, ?_, ?_, rfl⟩
  · show some (((4 : ℕ) : ℚ) / ((gridColumns : ℕ) : ℚ)) = some (1 / 3)
    simp only [gridColumns]
    norm_num
  · show some (((8 : ℕ) : ℚ) / ((gridColumns : ℕ) : ℚ)) = some (2 / 3)
    simp only [gridColumns]
    norm_num

/-- C6: when `hasDefaultValue` is not supplied, `defaultProps` resolves it to `false`, so
for every title, summary and children (each supplied or not) the mounted output is the
tree `render` gives for those same contents with `hasDefaultValue = false`, which is also
the output when `false` is supplied: collapsed, summary colour `"secondary"`.  A title,
summary or children that is supplied reaches `render` unchanged; one that is not supplied
reaches it as `undefined`. -/
theorem absent_hasDefaultValue_is_false {ρ : Type} (title summary children : Option (Node ρ)) :
    (resolveDefaultProps
      { title, summary, hasDefaultValue := none, children }).hasDefaultValue = false ∧
    mount { title, summary, hasDefaultValue := none, children }
      = render
          { title := title.getD .undefined
            summary := summary.getD .undefined
            hasDefaultValue := false
            children := children.getD .undefined } ∧
    mount { title, summary, hasDefaultValue := some false, children }
      = render
          { title := title.getD .undefined
            summary := summary.getD .undefined
            hasDefaultValue := false
            children := children.getD .undefined } ∧
    mount { title, summary, hasDefaultValue := none, children }
      = mount { title, summary, hasDefaultValue := some false, children } ∧
    (∀ t s c : ρ,
      mount { title := some (.content t), summary := some (.content s),
              hasDefaultValue := none, children := some (.content c) }
        = render { title := .content t, summary := .content s, hasDefaultValue := false,
                   children := .content c }) ∧
    (mount { title, summary, hasDefaultValue := none, children }).attr "defaultExpanded"
      = some (.bool false) ∧
    (summaryTypography (mount { title, summary, hasDefaultValue := none, children })).bind
      (fun e => e.attr "color") = some (.str "secondary") ∧
    (mount { title, summary, hasDefaultValue := none, children }).exprs
      = [title.getD .undefined, summary.getD .undefined, children.getD .undefined] ∧
    (∀ h : Option Bool,
      (resolveDefaultProps
        ({ title := none, summary, hasDefaultValue := h, children } : SuppliedProps ρ)).title
        = .undefined) ∧
    (∀ h : Option Bool,
      (resolveDefaultProps
        ({ title, summary := none, hasDefaultValue := h, children } : SuppliedProps ρ)).summary
        = .undefined) ∧
    (∀ h : Option Bool,
      (resolveDefaultProps
        ({ title, summary, hasDefaultValue := h, children := none } : SuppliedProps ρ)).children
        = .undefined) ∧
    mount ({ title := none, summary := none, hasDefaultValue := none, children := none } :
        SuppliedProps ρ)
      = render { title := .undefined, summary := .undefined, hasDefaultValue := false,
                 children := .undefined } := by
  have hnode : ∀ n : Option (Node ρ), resolveNode .undefined n = n.getD .undefined := by
    intro n
    rcases n with _ | (_ | r) <;> rfl
  have hmount : ∀ h : Option Bool,
      mount { title, summary, hasDefaultValue := h, children }
        = render
            { title := title.getD .undefined
              summary := summary.getD .undefined
              hasDefaultValue := h.getD false
              children := children.getD .undefined } := by
    intro h
    show render
        { title := resolveNode .undefined title
          summary := resolveNode .undefined summary
          hasDefaultValue := h.getD false
          children := resolveNode .undefined children } = _
    rw [hnode title, hnode summary, hnode children]
  refine ⟨rfl, hmount none, hmount (some false), rfl, fun _ _ _ => rfl, rfl, rfl, ?_,
    fun _ => rfl, fun _ => rfl, fun _ => rfl, rfl⟩
  rw [hmount none]
  rfl

/-- C8: the component does not control the panel's expanded state: for every props value
the rendered `ExpansionPanel` carries the single attribute `defaultExpanded`, equal to
`hasDefaultValue`, carries neither `expanded` nor `onChange`, and the class has no state
(its state record has one value only). -/
theorem expanded_state_uncontrolled {ν : Type} (props : Props ν) :
    (render props).type = .ExpansionPanel ∧
    (render props).props = [("defaultExpanded", .bool props.hasDefaultValue)] ∧
    (render props).attr "defaultExpanded" = some (.bool props.hasDefaultValue) ∧
    (render props).attr "expanded" = none ∧
    (render props).attr "onChange" = none ∧
    (render props).elementsOf .ExpansionPanel = [render props] ∧
    (∀ s t : State, s = t) :=
  ⟨rfl, rfl, rfl, rfl, rfl, rfl, fun _ _ => rfl⟩

/-- C9: for every title, summary and children, the trees rendered with
`hasDefaultValue = true` and `= false` differ in exactly two attributes: the
`ExpansionPanel`'s `defaultExpanded` and the summary `Typography`'s `color`.  Setting
those two attributes in the `false` tree gives the `true` tree; the title `Typography`
(variant `"body2"`, no colour), both `noWrap` flags, the grid items, the expand icon,
the details region and the three content slots are the same. -/
theorem true_false_differ_in_two_attributes {ν : Type} (title summary children : ν) :
    (render { title, summary, hasDefaultValue := true, children }).attr "defaultExpanded"
      ≠ (render { title, summary, hasDefaultValue := false, children }).attr
          "defaultExpanded" ∧
    (summaryTypography (render { title, summary, hasDefaultValue := true, children })).bind
        (fun e => e.attr "color")
      ≠ (summaryTypography (render { title, summary, hasDefaultValue := false, children })).bind
          (fun e => e.attr "color") ∧
    render { title, summary, hasDefaultValue := true, children }
      = ((render { title, summary, hasDefaultValue := false, children }).setAttrAt
            "defaultExpanded" (.bool true) []).setAttrAt
          "color" (.str "textSecondary") [0, 0, 1, 0] ∧
    render { title, summary, hasDefaultValue := false, children }
      = ((render { title, summary, hasDefaultValue := true, children }).setAttrAt
            "defaultExpanded" (.bool false) []).setAttrAt
          "color" (.str "secondary") [0, 0, 1, 0] ∧
    titleTypography (render { title, summary, hasDefaultValue := true, children })
      = some (.mk .Typography [("variant", .str "body2"), ("noWrap", .bool true)]
          [.expr title]) ∧
    titleTypography (render { title, summary, hasDefaultValue := false, children })
      = some (.mk .Typography [("variant", .str "body2"), ("noWrap", .bool true)]
          [.expr title]) ∧
    (summaryTypography (render { title, summary, hasDefaultValue := true, children })).bind
        (fun e => e.attr "noWrap")
      = (summaryTypography (render { title, summary, hasDefaultValue := false, children })).bind
          (fun e => e.attr "noWrap") ∧
    ((render { title, summary, hasDefaultValue := true, children }).descend [0, 0, 0]
      = (render { title, summary, hasDefaultValue := false, children }).descend [0, 0, 0]) ∧
    (((render { title, summary, hasDefaultValue := true, children }).descend [0, 0, 1]).map
        Element.props
      = ((render { title, summary, hasDefaultValue := false, children }).descend [0, 0, 1]).map
          Element.props) ∧
    ((header (render { title, summary, hasDefaultValue := true, children })).map Element.props
      = some [("expandIcon", .element (.mk .ExpandMoreIcon [] []))]) ∧
    ((header (render { title, summary, hasDefaultValue := false, children })).map Element.props
      = some [("expandIcon", .element (.mk .ExpandMoreIcon [] []))]) ∧
    (details (render { title, summary, hasDefaultValue := true, children })
      = details (render { title, summary, hasDefaultValue := false, children })) ∧
    ((render { title, summary, hasDefaultValue := true, children }).exprs
      = (render { title, summary, hasDefaultValue := false, children }).exprs) := by
  refine ⟨?_, ?_, rfl, rfl, rfl, rfl, rfl, rfl, rfl, rfl, rfl, rfl, rfl⟩
  · show some (PropValue.bool true) ≠ some (PropValue.bool false)
    intro h
    cases h
  · show some (PropValue.str "textSecondary") ≠ some (PropValue.str "secondary")
    simp

/-- C10: the initial expansion and the summary colour depend on `hasDefaultValue` alone:
two props values with the same `hasDefaultValue` render trees with the same
`defaultExpanded` and the same summary colour; both trees are images of one and the same
tree (the one rendered from the prop names), so they are equal once the contents of the
embedded expressions are forgotten, and the embedded expressions are exactly the title,
summary and children of each. -/
theorem expansion_and_colour_depend_on_flag_only {ν : Type} (p q : Props ν)
    (h : p.hasDefaultValue = q.hasDefaultValue) :
    (render p).attr "defaultExpanded" = (render q).attr "defaultExpanded" ∧
    (summaryTypography (render p)).bind (fun e => e.attr "color")
      = (summaryTypography (render q)).bind (fun e => e.attr "color") ∧
    render p = (render (Props.names p.hasDefaultValue)).map p.get ∧
    render q = (render (Props.names p.hasDefaultValue)).map q.get ∧
    (render p).map (fun _ => ()) = (render q).map (fun _ => ()) ∧
    (render p).exprs = [p.title, p.summary, p.children] ∧
    (render q).exprs = [q.title, q.summary, q.children] := by
  have hunit : ∀ r : Props ν, (render r).map (fun _ => ())
      = render ({ title := (), summary := (), hasDefaultValue := r.hasDefaultValue,
                  children := () } : Props Unit) := fun _ => rfl
  refine ⟨?_, ?_, rfl, ?_, ?_, rfl, rfl⟩
  · show some (PropValue.bool p.hasDefaultValue) = some (PropValue.bool q.hasDefaultValue)
    rw [h]
  · show some (PropValue.str (if p.hasDefaultValue then "textSecondary" else "secondary"))
      = some (PropValue.str (if q.hasDefaultValue then "textSecondary" else "secondary"))
    rw [h]
  · rw [h]
    rfl
  · rw [hunit p, hunit q, h]

/-- C10 at two concrete props values with the same flag and different contents. -/
theorem expansion_and_colour_depend_on_flag_only_witness :
    expireNever.hasDefaultValue = scheduleNow.hasDefaultValue ∧
    expireNever.title ≠ scheduleNow.title ∧
    ((render expireNever).attr "defaultExpanded" = (render scheduleNow).attr "defaultExpanded" ∧
    (summaryTypography (render expireNever)).bind (fun e => e.attr "color")
      = (summaryTypography (render scheduleNow)).bind (fun e => e.attr "color") ∧
    render expireNever = (render (Props.names expireNever.hasDefaultValue)).map expireNever.get ∧
    render scheduleNow = (render (Props.names expireNever.hasDefaultValue)).map scheduleNow.get ∧
    (render expireNever).map (fun _ => ()) = (render scheduleNow).map (fun _ => ()) ∧
    (render expireNever).exprs
      = [expireNever.title, expireNever.summary, expireNever.children] ∧
    (render scheduleNow).exprs
      = [scheduleNow.title, scheduleNow.summary, scheduleNow.children]) :=
  ⟨rfl, by decide, expansion_and_colour_depend_on_flag_only expireNever scheduleNow rfl⟩

end SilenceEntryFormPanel
